import Mathlib

/-
  Verification of the single-cycle repost pipeline (main.py, scraper.py,
  downloader.py, uploader.py) against its natural-language specification.

  The Python modules are embedded shallowly:
  * pure string manipulation (caption cleaning, the date:count counter file,
    splitting, stripping, integer parsing) is embedded over List Char with
    executable functions mirroring the Python string operations used;
  * external effects (the Instagram DM adapter, yt-dlp, ffmpeg, the two
    publish HTTP clients) are oracles carried in an Env record: each oracle
    value is the outcome the external call would produce this cycle;
  * the file system is a Finset String of existing local paths, and the
    processed_ids.txt file is a List String of its lines;
  * Python dynamic typing matters in one place: download_video returns a
    2-tuple while main.py treats the value as a string-or-None.  A small
    PyVal type captures the Python value, its truthiness, and the fact that
    os.path.getsize raises TypeError on a non-string.
-/

namespace RepostBot

/-! ## Python string primitives (List Char embeddings) -/

/-- Whitespace class used by Python str.strip and the regex class \s. -/
def isSpaceCh (c : Char) : Bool :=
  c = ' ' || c = '\t' || c = '\n' || c = '\r' || c = '\x0b' || c = '\x0c'

/-- Python str.strip over a character list. -/
def pyStrip (l : List Char) : List Char :=
  ((l.dropWhile isSpaceCh).reverse.dropWhile isSpaceCh).reverse

/-- Python str.split on a single colon separator: line.split chr 58. -/
def splitColon : List Char → List (List Char)
  | [] => [[]]
  | c :: rest =>
    if c = ':' then [] :: splitColon rest
    else
      match splitColon rest with
      | [] => [[c]]
      | h :: t => (c :: h) :: t

/-- ASCII decimal digit test, by code point. -/
def isDigitCh (c : Char) : Bool :=
  decide (48 ≤ c.toNat) && decide (c.toNat ≤ 57)

/-- Numeric value of an ASCII digit. -/
def digitVal (c : Char) : Nat := c.toNat - 48

/-- Accumulating decimal parser: consumes the whole list or fails. -/
def parseDigitsGo (acc : Nat) : List Char → Option Nat
  | [] => some acc
  | c :: rest =>
    if isDigitCh c then parseDigitsGo (acc * 10 + digitVal c) rest else none

/-- Decimal parser requiring at least one digit. -/
def parseDigits (l : List Char) : Option Nat :=
  match l with
  | [] => none
  | _ => parseDigitsGo 0 l

/-- Embedding of Python int(s): surrounding whitespace tolerated, optional
sign, decimal digits; None models the ValueError path. -/
def pyInt (l : List Char) : Option Int :=
  match pyStrip l with
  | [] => none
  | c :: rest =>
    if c = '-' then (parseDigits rest).map (fun n => -(n : Int))
    else if c = '+' then (parseDigits rest).map (fun n => (n : Int))
    else (parseDigits (c :: rest)).map (fun n => (n : Int))

/-- Decimal digit character for a value below ten. -/
def digitChar : Nat → Char
  | 0 => '0'
  | 1 => '1'
  | 2 => '2'
  | 3 => '3'
  | 4 => '4'
  | 5 => '5'
  | 6 => '6'
  | 7 => '7'
  | 8 => '8'
  | 9 => '9'
  | _ => 'X'

/-- Fuelled decimal rendering of a natural number (most significant first). -/
def natStrGo : Nat → Nat → List Char
  | 0, _ => []
  | fuel + 1, k =>
    if k < 10 then [digitChar k]
    else natStrGo fuel (k / 10) ++ [digitChar (k % 10)]

/-- Decimal rendering of a natural number. -/
def natStr (k : Nat) : String := String.mk (natStrGo (k + 1) k)

/-- Decimal rendering of an integer, as Python str does in the f-string. -/
def intStr (n : Int) : String :=
  if n < 0 then "-" ++ natStr (-n).toNat else natStr n.toNat

/-- Literal match of a pattern against the front of a list. -/
def litMatch : List Char → List Char → Bool
  | [], _ => true
  | _ :: _, [] => false
  | p :: ps, c :: cs => p = c && litMatch ps cs

/-- Substring test, as the Python expression pat in s. -/
def containsSub (pat : List Char) : List Char → Bool
  | [] => litMatch pat []
  | c :: rest => litMatch pat (c :: rest) || containsSub pat rest

/-- Length of the regex match https?://\S+ anchored at the list head, if
any: the scheme literal followed by one or more non-space characters. -/
def urlMatchLen (l : List Char) : Option Nat :=
  let tryScheme : List Char → Option Nat := fun scheme =>
    if litMatch scheme l then
      let tail := (l.drop scheme.length).takeWhile (fun c => !isSpaceCh c)
      if tail.length = 0 then none else some (scheme.length + tail.length)
    else none
  match tryScheme "https://".data with
  | some n => some n
  | none => tryScheme "http://".data

/-- Fuelled left-to-right deletion of every non-overlapping URL match,
embedding re.sub of https?://\S+ with the empty replacement. -/
def stripUrlsGo : Nat → List Char → List Char
  | 0, l => l
  | _, [] => []
  | fuel + 1, c :: rest =>
    match urlMatchLen (c :: rest) with
    | some n => stripUrlsGo fuel (rest.drop (n - 1))
    | none => c :: stripUrlsGo fuel rest

/-- Deletion of every URL match in the list. -/
def stripUrls (l : List Char) : List Char := stripUrlsGo l.length l

/-- Fuelled embedding of re.sub collapsing each whitespace run to one
space. -/
def collapseWsGo : Nat → List Char → List Char
  | 0, l => l
  | _, [] => []
  | fuel + 1, c :: rest =>
    if isSpaceCh c then ' ' :: collapseWsGo fuel (rest.dropWhile isSpaceCh)
    else c :: collapseWsGo fuel rest

/-- Collapse each whitespace run in the list to a single space. -/
def collapseWs (l : List Char) : List Char := collapseWsGo l.length l

/-! ## uploader.py caption helpers -/

/-- uploader.clean_caption: strips URLs and whitespace from tweet text and
falls back to an author-based or generic caption when nothing remains. -/
def clean_caption (text : String) (author : String) : String :=
  let cleaned := pyStrip (stripUrls text.data)
  let cleaned2 := pyStrip (collapseWs cleaned)
  if cleaned2 ≠ [] then String.mk cleaned2
  else if author ≠ "" then "🎬 Video by " ++ author
  else "🎬 Check out this video!"

/-- Python slice s up-to k with Python semantics for a negative bound:
a negative bound counts from the end and clamps at zero. -/
def pySliceTo (s : String) (k : Int) : String :=
  let cut : Int := if k < 0 then (s.length : Int) + k else k
  String.mk (s.data.take cut.toNat)

/-- uploader.make_title: the cleaned caption, truncated with an ellipsis
when longer than max_len (the Python default for max_len is 100). -/
def make_title (text author : String) (max_len : Int) : String :=
  let clean := clean_caption text author
  if (clean.length : Int) > max_len then pySliceTo clean (max_len - 3) ++ "..."
  else clean

/-! ## scraper.py: bookmark discovery -/

/-- One entry of twikit media.streams: content type, bitrate, url. -/
structure StreamInfo where
  content_type : Option String
  bitrate : Option Nat
  url : String
deriving DecidableEq

/-- A media attachment of a tweet: a video with its streams, or any
non-video attachment. -/
inductive MediaItem where
  | video (streams : List StreamInfo)
  | photo
deriving DecidableEq

/-- The fields of a twikit Tweet the scraper reads; user is the screen
name when the tweet has an author object. -/
structure Tweet where
  id : String
  media : List MediaItem
  text : String
  user : Option String
deriving DecidableEq

/-- The test content_type truthy and video-mp4-substring from
scraper.get_video_url. -/
def streamIsMp4 (s : StreamInfo) : Bool :=
  match s.content_type with
  | some ct => containsSub "video/mp4".data ct.data
  | none => false

/-- Python max with a bitrate-or-0 key: first maximum wins on ties. -/
def maxByBitrate : List StreamInfo → Option StreamInfo
  | [] => none
  | s :: rest =>
    some (rest.foldl
      (fun best cur => if (cur.bitrate.getD 0) > (best.bitrate.getD 0) then cur else best) s)

/-- Loop body of scraper.get_video_url over the media list: the first
video attachment with a nonempty stream list yields the best mp4 stream
url (all streams when none is explicitly mp4). -/
def get_video_url_media : List MediaItem → Option String
  | [] => none
  | MediaItem.photo :: rest => get_video_url_media rest
  | MediaItem.video streams :: rest =>
    if streams = [] then get_video_url_media rest
    else
      let mp4 := streams.filter streamIsMp4
      let pool := if mp4 = [] then streams else mp4
      (maxByBitrate pool).map StreamInfo.url

/-- scraper.get_video_url: highest-bitrate video url of a tweet, none when
the tweet has no usable video media. -/
def get_video_url (t : Tweet) : Option String :=
  if t.media = [] then none else get_video_url_media t.media

/-- The dict built for each new video by scraper.fetch_bookmarked_videos. -/
structure Entry where
  tweet_id : String
  video_url : String
  tweet_text : String
  author : String
deriving DecidableEq

/-- Entry construction: id, url, text truncated to 280, author label. -/
def entryOf (t : Tweet) (url : String) : Entry :=
  { tweet_id := t.id
    video_url := url
    tweet_text := String.mk (t.text.data.take 280)
    author := match t.user with
      | some u => "@" ++ u
      | none => "unknown" }

/-- The bookmark loop of fetch_bookmarked_videos.  processed0 is the set of
ids loaded at the start (membership is checked against it, not against ids
saved during the loop, exactly as in the source).  Returns the entry list
and the ids appended to processed_ids.txt during the loop: every
unprocessed tweet without a video is always saved; an unprocessed video
tweet is saved only when autoSave is set. -/
def fetchLoop (processed0 : List String) (autoSave : Bool) :
    List Tweet → List Entry × List String
  | [] => ([], [])
  | t :: rest =>
    if processed0.contains t.id then fetchLoop processed0 autoSave rest
    else
      match get_video_url t with
      | none =>
        let r := fetchLoop processed0 autoSave rest
        (r.1, t.id :: r.2)
      | some url =>
        let r := fetchLoop processed0 autoSave rest
        (entryOf t url :: r.1, if autoSave then t.id :: r.2 else r.2)

/-- Result of one discovery call of the bookmark adapter: the entries
returned to the caller, the ids newly appended to processed_ids.txt, and
the resulting file contents. -/
structure FetchResult where
  entries : List Entry
  newSaved : List String
  fileAfter : List String
deriving DecidableEq

/-- scraper.fetch_bookmarked_videos over an already-fetched bookmark list
(the cookie and network layers are outside the model; on their failure the
source returns an empty list, covered by bookmarks = []). -/
def fetch_bookmarked_videos (autoSave : Bool) (bookmarks : List Tweet)
    (processedFile : List String) : FetchResult :=
  let r := fetchLoop processedFile autoSave bookmarks
  { entries := r.1, newSaved := r.2, fileAfter := processedFile ++ r.2 }

/-! ## main.py: YouTube daily counter -/

/-- The fixed daily ceiling YT_DAILY_LIMIT of main.py. -/
def YT_DAILY_LIMIT : Int := 6

/-- main._get_yt_daily_count over the contents of yt_daily_count.txt
(none when the file does not exist): strip the line, split on colons,
require exactly two fields, compare the stored date with today, parse the
count; every failure path yields 0 via the except handler. -/
def yt_daily_count (content : Option String) (today : String) : Int :=
  match content with
  | none => 0
  | some s =>
    let line := pyStrip s.data
    if line = [] then 0
    else
      match splitColon line with
      | [d, c] =>
        if d = today.data then
          match pyInt c with
          | some v => v
          | none => 0
        else 0
      | _ => 0

/-- main._increment_yt_daily_count: reads the current count, writes
today:(count+1), returns the new file contents and the new count. -/
def increment_yt_daily_count (content : Option String) (today : String) :
    String × Int :=
  let current := yt_daily_count content today
  let new_count := current + 1
  (today ++ ":" ++ intStr new_count, new_count)

/-- main._yt_limit_reached: true when the stored same-day count has
reached the ceiling. -/
def yt_limit_reached (content : Option String) (today : String) : Bool :=
  decide (YT_DAILY_LIMIT ≤ yt_daily_count content today)

/-! ## downloader.py -/

/-- A Python runtime value as far as main.py handles download results:
None, a string, or a 2-tuple. -/
inductive PyVal where
  | pynone
  | pystr (s : String)
  | pypair (a b : PyVal)
deriving DecidableEq

/-- Python truthiness: None falsy, a string falsy iff empty, a 2-tuple
always truthy. -/
def PyVal.truthy : PyVal → Bool
  | .pynone => false
  | .pystr s => decide (s ≠ "")
  | .pypair _ _ => true

/-- downloader.download_video: regardless of success it returns a 2-tuple,
either (filepath, caption) or (None, None) — its annotation says
str-or-None but every return statement builds a pair.  The oracle res is
the outcome of the yt-dlp call. -/
def download_video (res : Option (String × String)) : PyVal :=
  match res with
  | some (fp, cap) => PyVal.pypair (PyVal.pystr fp) (PyVal.pystr cap)
  | none => PyVal.pypair PyVal.pynone PyVal.pynone

/-- os.path.getsize succeeds only on a string path naming an existing
file; on a tuple it raises TypeError, on a missing file FileNotFoundError. -/
def getsizeOk (files : Finset String) : PyVal → Bool
  | .pystr s => decide (s ∈ files)
  | _ => false

/-- os.path.splitext base (directory-component dots are not modelled:
the base is everything before the last dot, the whole name when there is
no dot). -/
def splitextBase (fp : String) : String :=
  let rl := fp.data.reverse
  if rl.contains '.' then String.mk ((rl.dropWhile (fun c => c ≠ '.')).drop 1).reverse
  else fp

/-- downloader.convert_to_vertical with the ffmpeg run as the oracle
success: when the input exists and ffmpeg succeeds, the vertical output
file is created, the original is removed, and the output path returned;
every failure path returns none and leaves the file set unchanged. -/
def convert_to_vertical (success : Bool) (filepath : String)
    (files : Finset String) : Option String × Finset String :=
  if filepath ∈ files then
    if success then
      let output_path := splitextBase filepath ++ "_vertical.mp4"
      (some output_path, (insert output_path files).erase filepath)
    else (none, files)
  else (none, files)

/-- downloader.cleanup_video: delete the file when it exists. -/
def cleanup_video (filepath : String) (files : Finset String) : Finset String :=
  files.erase filepath

/-! ## uploader.py upload_video -/

/-- What one call of uploader.upload_video did.  raised records an
exception escaping a destination client (the HTTP calls of
upload_to_youtube and upload_to_instagram are not wrapped per-destination,
so such an exception propagates out of upload_video); youtube_id and
instagram_id are the fields of the returned dict, meaningful only when the
call returned; ytPublished and igPublished record the external effect of a
destination accepting the video, which survives a later exception. -/
structure UploadOutcome where
  raised : Bool
  youtube_id : Option String
  instagram_id : Option String
  ytPublished : Option String
  igPublished : Option String
  ytAttempted : Bool
  igAttempted : Bool
deriving DecidableEq

/-- uploader.upload_video with the two destination clients as oracles:
each oracle is the outcome of the corresponding HTTP client call, either
ok (some id) for success, ok none for a handled failure returning None, or
error for an exception escaping the client.  A destination is attempted
only when its flag is set and the local file exists; YouTube is attempted
before Instagram, and an exception aborts the rest of the call. -/
def upload_video (ytRes igRes : Except Unit (Option String))
    (files : Finset String) (local_path : Option String)
    (upload_youtube upload_instagram : Bool) : UploadOutcome :=
  let fileOk := match local_path with
    | some p => decide (p ∈ files)
    | none => false
  let ytA := upload_youtube && fileOk
  match (if ytA then ytRes else Except.ok none) with
  | .error _ =>
    { raised := true, youtube_id := none, instagram_id := none,
      ytPublished := none, igPublished := none,
      ytAttempted := ytA, igAttempted := false }
  | .ok y =>
    let igA := upload_instagram && fileOk
    match (if igA then igRes else Except.ok none) with
    | .error _ =>
      { raised := true, youtube_id := none, instagram_id := none,
        ytPublished := y, igPublished := none,
        ytAttempted := ytA, igAttempted := igA }
    | .ok i =>
      { raised := false, youtube_id := y, instagram_id := i,
        ytPublished := y, igPublished := i,
        ytAttempted := ytA, igAttempted := igA }

/-! ## main.py: the single-cycle pipeline -/

/-- The candidate dict handed to the pipeline by the Instagram DM source
(_try_ig_dm_source downloads the reel itself, so local_path is a real
string path). -/
structure Target where
  tweet_id : String
  tweet_text : String
  author : String
  local_path : String
deriving DecidableEq

/-- The operator-facing README dashboard fields the model tracks. -/
structure Dashboard where
  status : String
  queue_remaining : Nat
  last_tweet_id : Option String
  error_message : Option String
deriving DecidableEq

/-- The arguments main.run_pipeline passes to upload_video. -/
structure UploadCall where
  local_path : String
  upload_youtube : Bool
  upload_instagram : Bool
deriving DecidableEq

/-- The external world of one cycle: the outcome of the Instagram DM
source, the fetched bookmark list, the state files, the local file set,
and the oracles for yt-dlp, ffmpeg and the two publish clients. -/
structure Env where
  igResult : Option Target
  bookmarks : List Tweet
  processed0 : List String
  files0 : Finset String
  downloadRes : Option (String × String)
  convertSuccess : Bool
  ytUpload : Except Unit (Option String)
  igUpload : Except Unit (Option String)
  ytCountFile : Option String
  today : String

/-- Observable outcome of one cycle: the final processed_ids.txt lines,
the final local file set, the dashboard written this cycle (none when the
cycle died before writing it), the selected candidate, whether the
bookmark adapter was invoked, the ids saved as ineligible during
discovery, how often the quota gate was consulted, the upload_video call
and its returned pair, the external publish effects, the id saved after
publishing, the queue size at selection, the final counter file, and
whether the cycle crashed with an uncaught exception. -/
structure CycleResult where
  processed : List String
  files : Finset String
  dashboard : Option Dashboard
  selected : Option String
  xFetchInvoked : Bool
  ineligSaved : List String
  gateConsulted : Nat
  uploadCall : Option UploadCall
  uploadReturned : Option (Option String × Option String)
  ytPublished : Option String
  igPublished : Option String
  savedId : Option String
  remainingAtSelect : Option Nat
  countFile : Option String
  crashed : Bool

/-- Steps 3 to 6 of main.run_pipeline, reached with a string local path
p that exists: convert to vertical (non-fatal on failure), consult the
YouTube quota gate once, call upload_video with Instagram always enabled,
then either the crash handler (cleanup, Error dashboard, no id saved) or
the finalizer (increment the daily count on YouTube success, cleanup,
save the id iff at least one destination returned an id, one more queue
item prompted otherwise). -/
def processTarget (env : Env) (tid : String) (p : String)
    (processed1 : List String) (inelig : List String) (files1 : Finset String)
    (remaining : Nat) (xInvoked : Bool) : CycleResult :=
  let conv := convert_to_vertical env.convertSuccess p files1
  let local_path := conv.1.getD p
  let files2 := conv.2
  let yt_allowed := !(yt_limit_reached env.ytCountFile env.today)
  let outcome := upload_video env.ytUpload env.igUpload files2 (some local_path)
      yt_allowed true
  if outcome.raised then
    { processed := processed1
      files := cleanup_video local_path files2
      dashboard := some { status := "Error", queue_remaining := remaining + 1,
                          last_tweet_id := some tid,
                          error_message := some "upload crashed" }
      selected := some tid
      xFetchInvoked := xInvoked
      ineligSaved := inelig
      gateConsulted := 1
      uploadCall := some { local_path := local_path,
                           upload_youtube := yt_allowed, upload_instagram := true }
      uploadReturned := none
      ytPublished := outcome.ytPublished
      igPublished := outcome.igPublished
      savedId := none
      remainingAtSelect := some remaining
      countFile := env.ytCountFile
      crashed := false }
  else
    let yt_ok := outcome.youtube_id.isSome
    let ig_ok := outcome.instagram_id.isSome
    let countFile2 := if yt_ok
      then some (increment_yt_daily_count env.ytCountFile env.today).1
      else env.ytCountFile
    let files3 := cleanup_video local_path files2
    if yt_ok || ig_ok then
      { processed := processed1 ++ [tid]
        files := files3
        dashboard := some { status := "Idle", queue_remaining := remaining,
                            last_tweet_id := some tid, error_message := none }
        selected := some tid
        xFetchInvoked := xInvoked
        ineligSaved := inelig
        gateConsulted := 1
        uploadCall := some { local_path := local_path,
                             upload_youtube := yt_allowed, upload_instagram := true }
        uploadReturned := some (outcome.youtube_id, outcome.instagram_id)
        ytPublished := outcome.ytPublished
        igPublished := outcome.igPublished
        savedId := some tid
        remainingAtSelect := some remaining
        countFile := countFile2
        crashed := false }
    else
      { processed := processed1
        files := files3
        dashboard := some { status := "Idle", queue_remaining := remaining + 1,
                            last_tweet_id := some tid,
                            error_message := some "both uploads failed" }
        selected := some tid
        xFetchInvoked := xInvoked
        ineligSaved := inelig
        gateConsulted := 1
        uploadCall := some { local_path := local_path,
                             upload_youtube := yt_allowed, upload_instagram := true }
        uploadReturned := some (outcome.youtube_id, outcome.instagram_id)
        ytPublished := outcome.ytPublished
        igPublished := outcome.igPublished
        savedId := none
        remainingAtSelect := some remaining
        countFile := countFile2
        crashed := false }

/-- main.run_pipeline, one cycle.  Step 1 tries the Instagram DM source;
on a candidate the bookmark adapter is never invoked.  Step 2 otherwise
runs the bookmark scraper with auto_save off (ineligible ids are still
saved inside the scraper), exits idle on an empty list, else selects the
last entry (bookmarks are newest-first, so the last is the oldest),
downloads it, runs the dead not-local_path check (a 2-tuple is always
truthy), and reaches os.path.getsize: with a tuple value this raises
TypeError and the cycle dies before any dashboard write or cleanup.  A
string path that exists would continue into processTarget. -/
def run_pipeline (env : Env) : CycleResult :=
  match env.igResult with
  | some t =>
    processTarget env t.tweet_id t.local_path env.processed0 []
      (insert t.local_path env.files0) 0 false
  | none =>
    let fr := fetch_bookmarked_videos false env.bookmarks env.processed0
    match fr.entries with
    | [] =>
      { processed := fr.fileAfter
        files := env.files0
        dashboard := some { status := "Idle", queue_remaining := 0,
                            last_tweet_id := none, error_message := none }
        selected := none
        xFetchInvoked := true
        ineligSaved := fr.newSaved
        gateConsulted := 0
        uploadCall := none
        uploadReturned := none
        ytPublished := none
        igPublished := none
        savedId := none
        remainingAtSelect := none
        countFile := env.ytCountFile
        crashed := false }
    | e :: es =>
      let video := es.getLastD e
      let remaining := es.length
      let lp := download_video env.downloadRes
      if lp.truthy = false then
        { processed := fr.fileAfter
          files := env.files0
          dashboard := some { status := "Error", queue_remaining := remaining + 1,
                              last_tweet_id := some video.tweet_id,
                              error_message := some "download failed" }
          selected := some video.tweet_id
          xFetchInvoked := true
          ineligSaved := fr.newSaved
          gateConsulted := 0
          uploadCall := none
          uploadReturned := none
          ytPublished := none
          igPublished := none
          savedId := none
          remainingAtSelect := some remaining
          countFile := env.ytCountFile
          crashed := false }
      else
        let files1 := match env.downloadRes with
          | some (fp, _) => insert fp env.files0
          | none => env.files0
        match lp with
        | PyVal.pystr p =>
          if p ∈ files1 then
            processTarget env video.tweet_id p fr.fileAfter fr.newSaved files1
              remaining true
          else
            { processed := fr.fileAfter
              files := files1
              dashboard := none
              selected := some video.tweet_id
              xFetchInvoked := true
              ineligSaved := fr.newSaved
              gateConsulted := 0
              uploadCall := none
              uploadReturned := none
              ytPublished := none
              igPublished := none
              savedId := none
              remainingAtSelect := some remaining
              countFile := env.ytCountFile
              crashed := true }
        | _ =>
          { processed := fr.fileAfter
            files := files1
            dashboard := none
            selected := some video.tweet_id
            xFetchInvoked := true
            ineligSaved := fr.newSaved
            gateConsulted := 0
            uploadCall := none
            uploadReturned := none
            ytPublished := none
            igPublished := none
            savedId := none
            remainingAtSelect := some remaining
            countFile := env.ytCountFile
            crashed := true }

/-! ## Concrete cycle environments used by counterexamples and witnesses -/

/-- A DM-sourced candidate used by the C1 counterexample. -/
def tgtC1 : Target :=
  { tweet_id := "ig_101", tweet_text := "hello", author := "@a",
    local_path := "reel101.mp4" }

/-- C1 counterexample environment: a DM candidate, YouTube quota open,
the YouTube client succeeds with id yt9, the Instagram client raises. -/
def envC1 : Env :=
  { igResult := some tgtC1, bookmarks := [], processed0 := [], files0 := ∅,
    downloadRes := none, convertSuccess := false,
    ytUpload := Except.ok (some "yt9"), igUpload := Except.error (),
    ytCountFile := none, today := "2026-10-12" }

/-- An eligible bookmarked video tweet used by the C2 evaluation. -/
def twC2 : Tweet :=
  { id := "t1",
    media := [MediaItem.video
      [{ content_type := some "video/mp4", bitrate := some 832000,
         url := "https://video.twimg.com/v1" }]],
    text := "clip", user := some "alice" }

/-- C2 failing environment: no DM candidate, one unprocessed bookmarked
video, and the yt-dlp download fails. -/
def envC2 : Env :=
  { igResult := none, bookmarks := [twC2], processed0 := [], files0 := ∅,
    downloadRes := none, convertSuccess := false,
    ytUpload := Except.ok none, igUpload := Except.ok none,
    ytCountFile := none, today := "2026-10-12" }

/-! ## Claim theorems -/

/-- Claim C1, counterexample: in envC1 the YouTube publish succeeded for
candidate ig_101 (the external effect ytPublished carries the returned
video id), yet because the Instagram client then raised, main.py lands in
the upload-crashed handler and the id is never saved — contradicting the
claim that any destination success puts the id in the ProcessedSet. -/
theorem c1_counterexample :
    (run_pipeline envC1).ytPublished = some "yt9" ∧
    (run_pipeline envC1).savedId = none ∧
    "ig_101" ∉ (run_pipeline envC1).processed := by
  refine ⟨rfl, rfl, ?_⟩
  decide

/-- Claim C2, evaluation at the failing input: with no DM candidate, one
unprocessed bookmarked video and a failing download, the cycle does not
transition to the Error outcome — download_video returns the truthy pair
(None, None), the dead not-local_path check is skipped, and the cycle
crashes with TypeError inside os.path.getsize before writing any
dashboard; the id is unsaved only because the process dies. -/
theorem c2_failing_input_eval :
    (run_pipeline envC2).crashed = true ∧
    (run_pipeline envC2).dashboard = none ∧
    (run_pipeline envC2).savedId = none ∧
    "t1" ∉ (run_pipeline envC2).processed := by
  refine ⟨rfl, rfl, rfl, ?_⟩
  decide

/-- A DM-sourced candidate used by the C4 witness. -/
def tgtC4 : Target :=
  { tweet_id := "ig_400", tweet_text := "sel", author := "@s",
    local_path := "reel400.mp4" }

/-- C4 witness environment: the DM source yields a candidate while the
bookmark list is nonempty. -/
def envC4 : Env :=
  { igResult := some tgtC4, bookmarks := [twC2], processed0 := [], files0 := ∅,
    downloadRes := none, convertSuccess := true,
    ytUpload := Except.ok none, igUpload := Except.ok (some "m4"),
    ytCountFile := none, today := "2026-10-12" }

/-- Claim C4: when the higher-priority Instagram-DM source yields a
candidate, the bookmark discovery fetch_bookmarked_videos is never
invoked in that cycle, and the selector takes the DM candidate. -/
theorem c4_ig_short_circuits_bookmarks (env : Env) (t : Target)
    (h : env.igResult = some t) :
    (run_pipeline env).xFetchInvoked = false ∧
    (run_pipeline env).selected = some t.tweet_id := by
  obtain ⟨ig, bms, p0, f0, dl, cs, ytu, igu, cf, td⟩ := env
  cases h
  simp only [run_pipeline, processTarget]
  split
  · exact ⟨rfl, rfl⟩
  · split
    · exact ⟨rfl, rfl⟩
    · exact ⟨rfl, rfl⟩

/-- Claim C4 witness at a concrete environment. -/
theorem c4_witness :
    (run_pipeline envC4).xFetchInvoked = false ∧
    (run_pipeline envC4).selected = some tgtC4.tweet_id :=
  c4_ig_short_circuits_bookmarks envC4 tgtC4 rfl

/-- Claim C5: the publish destinations are independent and a disabled
destination is skipped.  In order: the Instagram attempt and its result
are unchanged whether the YouTube client returned no id or an id; the
YouTube result is unchanged by the Instagram client outcome; with both
destinations enabled Instagram is attempted exactly when the local file
exists, regardless of YouTube having returned no id; a YouTube
destination disabled ahead of time makes the whole call independent of
the YouTube client and contributes no attempt, no id and no publish; a
disabled Instagram destination likewise. -/
theorem c5_destinations_independent (y y2 i i2 : Option String)
    (ytRes igRes : Except Unit (Option String)) (files : Finset String)
    (lp : Option String) (uy ui : Bool) (p : String) :
    ((upload_video (Except.ok y) (Except.ok i) files lp true true).instagram_id =
       (upload_video (Except.ok y2) (Except.ok i) files lp true true).instagram_id ∧
     (upload_video (Except.ok y) (Except.ok i) files lp true true).igAttempted =
       (upload_video (Except.ok y2) (Except.ok i) files lp true true).igAttempted) ∧
    (upload_video (Except.ok y) (Except.ok i) files lp true true).youtube_id =
      (upload_video (Except.ok y) (Except.ok i2) files lp true true).youtube_id ∧
    (upload_video (Except.ok none) (Except.ok i) files (some p) true true).igAttempted =
      decide (p ∈ files) ∧
    (upload_video ytRes igRes files lp false ui =
       upload_video (Except.ok none) igRes files lp false ui ∧
     (upload_video ytRes igRes files lp false ui).ytAttempted = false ∧
     (upload_video ytRes igRes files lp false ui).youtube_id = none ∧
     (upload_video ytRes igRes files lp false ui).ytPublished = none) ∧
    ((upload_video ytRes igRes files lp uy false).igAttempted = false ∧
     (upload_video ytRes igRes files lp uy false).instagram_id = none ∧
     (upload_video ytRes igRes files lp uy false).igPublished = none) := by
  by_cases hp : p ∈ files <;>
    cases ytRes <;> cases igRes <;> cases uy <;> cases ui <;> cases lp <;>
      simp [upload_video, hp] <;>
      (rename_i q; by_cases hq : q ∈ files <;> simp [upload_video, hq])

/-- A DM-sourced candidate used by the C6 witness. -/
def tgtC6 : Target :=
  { tweet_id := "ig_600", tweet_text := "conv", author := "@c",
    local_path := "reel600.mp4" }

/-- C6 witness environment: the DM source yields a candidate, ffmpeg
fails, YouTube returns no id, Instagram succeeds. -/
def envC6 : Env :=
  { igResult := some tgtC6, bookmarks := [], processed0 := [], files0 := ∅,
    downloadRes := none, convertSuccess := false,
    ytUpload := Except.ok none, igUpload := Except.ok (some "m6"),
    ytCountFile := none, today := "2026-10-12" }

/-- Claim C6: a failed vertical-reformat transform is non-fatal — the
cycle does not abort, upload_video is invoked with the original
downloaded file, and a successful Instagram publish still finalizes the
cycle with the candidate id saved. -/
theorem c6_nonfatal_transform (env : Env) (t : Target) (y : Option String)
    (m : String) (h1 : env.igResult = some t) (h2 : env.convertSuccess = false)
    (h3 : env.ytUpload = Except.ok y) (h4 : env.igUpload = Except.ok (some m)) :
    (run_pipeline env).crashed = false ∧
    (run_pipeline env).uploadCall =
      some { local_path := t.local_path,
             upload_youtube := !(yt_limit_reached env.ytCountFile env.today),
             upload_instagram := true } ∧
    (run_pipeline env).savedId = some t.tweet_id := by
  obtain ⟨ig, bms, p0, f0, dl, cs, ytu, igu, cf, td⟩ := env
  cases h1; cases h2; cases h3; cases h4
  simp only [run_pipeline, processTarget, convert_to_vertical]
  rw [if_pos (Finset.mem_insert_self _ _)]
  simp only [if_neg (Bool.false_ne_true), Option.getD_some, Option.getD_none]
  cases hb : yt_limit_reached cf td <;>
    simp [upload_video, Finset.mem_insert_self, hb]

/-- Claim C6 witness at a concrete environment. -/
theorem c6_witness :
    (run_pipeline envC6).crashed = false ∧
    (run_pipeline envC6).uploadCall =
      some { local_path := tgtC6.local_path,
             upload_youtube := !(yt_limit_reached envC6.ytCountFile envC6.today),
             upload_instagram := true } ∧
    (run_pipeline envC6).savedId = some tgtC6.tweet_id :=
  c6_nonfatal_transform envC6 tgtC6 none "m6" rfl rfl rfl rfl

/-- Helper: the pipeline consults the quota gate at most once per cycle,
whatever the cycle does. -/
theorem gateConsulted_le_one (env : Env) : (run_pipeline env).gateConsulted ≤ 1 := by
  obtain ⟨ig, bms, p0, f0, dl, cs, ytu, igu, cf, td⟩ := env
  cases ig with
  | some t =>
    simp only [run_pipeline, processTarget]
    split
    · exact le_refl 1
    · split <;> exact le_refl 1
  | none =>
    simp only [run_pipeline]
    rcases hE : (fetch_bookmarked_videos false bms p0).entries with _ | ⟨e, es⟩ <;>
      simp only [hE]
    · exact Nat.zero_le 1
    · cases dl <;> simp [download_video, PyVal.truthy]

/-- Helper: negation of the quota gate is the strict comparison with the
daily ceiling. -/
theorem not_yt_limit_reached (f : Option String) (d : String) :
    (!(yt_limit_reached f d)) = decide (yt_daily_count f d < YT_DAILY_LIMIT) := by
  rw [yt_limit_reached, ← decide_not]
  exact decide_eq_decide.mpr not_le

/-- Helper: whenever upload_video was called this cycle, its YouTube flag
is the gate decision taken on the pre-cycle counter file, the gate was
consulted exactly once, and a cycle without a YouTube success leaves the
counter file untouched. -/
theorem uploadCall_shape (env : Env) (c : UploadCall)
    (h : (run_pipeline env).uploadCall = some c) :
    c.upload_youtube = !(yt_limit_reached env.ytCountFile env.today) ∧
    (run_pipeline env).gateConsulted = 1 ∧
    ((∀ r, (run_pipeline env).uploadReturned = some r → r.1 = none) →
      (run_pipeline env).countFile = env.ytCountFile) := by
  obtain ⟨ig, bms, p0, f0, dl, cs, ytu, igu, cf, td⟩ := env
  cases ig with
  | some t =>
    simp only [run_pipeline, processTarget] at h ⊢
    split at h
    · rename_i hr
      simp only [Option.some.injEq] at h
      subst h
      simp [hr]
    · split at h
      · rename_i hr hok
        simp only [Option.some.injEq] at h
        subst h
        simp only [if_neg hr, if_pos hok]
        refine ⟨trivial, trivial, ?_⟩
        intro hnone
        have hy := hnone _ rfl
        simp only [Prod.fst] at hy
        simp [hy]
      · rename_i hr hok
        simp only [Option.some.injEq] at h
        subst h
        simp only [if_neg hr, if_neg hok]
        refine ⟨trivial, trivial, ?_⟩
        intro _
        have hy : ¬ (upload_video ytu igu
            (convert_to_vertical cs t.local_path (insert t.local_path f0)).2
            (some ((convert_to_vertical cs t.local_path
              (insert t.local_path f0)).1.getD t.local_path))
            (!yt_limit_reached cf td) true).youtube_id.isSome = true := by
          intro hcon
          exact hok (by simp [hcon])
        rw [if_neg hy]
  | none =>
    simp only [run_pipeline] at h ⊢
    rcases hE : (fetch_bookmarked_videos false bms p0).entries with _ | ⟨e, es⟩ <;>
      simp only [hE] at h ⊢
    · simp at h
    · cases dl <;> simp [download_video, PyVal.truthy] at h

/-- Claim C7: the YouTube destination is enabled iff its stored same-day
count is strictly below the ceiling of 6; the gate is consulted exactly
once in a publishing cycle (and never more than once in any cycle),
before the publish attempts, on the pre-cycle counter file; and a cycle
without a YouTube success leaves the counter file unchanged, so a repeat
query the same day returns the same decision. -/
theorem c7_quota_gate (env : Env) (c : UploadCall)
    (h : (run_pipeline env).uploadCall = some c) :
    c.upload_youtube = decide (yt_daily_count env.ytCountFile env.today < YT_DAILY_LIMIT) ∧
    (run_pipeline env).gateConsulted = 1 ∧
    (∀ env2 : Env, (run_pipeline env2).gateConsulted ≤ 1) ∧
    ((∀ r, (run_pipeline env).uploadReturned = some r → r.1 = none) →
      (run_pipeline env).countFile = env.ytCountFile ∧
      yt_limit_reached (run_pipeline env).countFile env.today =
        yt_limit_reached env.ytCountFile env.today) := by
  obtain ⟨h1, h2, h3⟩ := uploadCall_shape env c h
  refine ⟨by rw [h1, not_yt_limit_reached], h2, fun env2 => gateConsulted_le_one env2, ?_⟩
  intro hnone
  refine ⟨h3 hnone, by rw [h3 hnone]⟩

/-- C7 witness environment: a DM candidate with the daily counter at the
ceiling for today, so the gate blocks YouTube. -/
def envC7 : Env :=
  { igResult := some { tweet_id := "ig_700", tweet_text := "q", author := "@q",
                       local_path := "reel700.mp4" },
    bookmarks := [], processed0 := [], files0 := ∅,
    downloadRes := none, convertSuccess := false,
    ytUpload := Except.ok none, igUpload := Except.ok none,
    ytCountFile := some "2026-10-12:6", today := "2026-10-12" }

/-- Claim C7 witness at a concrete environment. -/
theorem c7_witness :
    ({ local_path := "reel700.mp4", upload_youtube := false,
       upload_instagram := true : UploadCall }).upload_youtube =
      decide (yt_daily_count envC7.ytCountFile envC7.today < YT_DAILY_LIMIT) ∧
    (run_pipeline envC7).gateConsulted = 1 ∧
    (∀ env2 : Env, (run_pipeline env2).gateConsulted ≤ 1) ∧
    ((∀ r, (run_pipeline envC7).uploadReturned = some r → r.1 = none) →
      (run_pipeline envC7).countFile = envC7.ytCountFile ∧
      yt_limit_reached (run_pipeline envC7).countFile envC7.today =
        yt_limit_reached envC7.ytCountFile envC7.today) :=
  c7_quota_gate envC7
    { local_path := "reel700.mp4", upload_youtube := false, upload_instagram := true }
    (by decide)

/-- Helper: the last element of a nonempty list via getLastD, as
main.run_pipeline computes videos minus-one selection. -/
theorem getLast?_cons_getLastD {α : Type} (e : α) (es : List α) :
    (e :: es).getLast? = some (es.getLastD e) := by
  induction es generalizing e with
  | nil => rfl
  | cons a as ih => rw [List.getLast?_cons_cons, ih, List.getLastD_cons]

/-- Helper: getLastD commutes with map. -/
theorem getLastD_map {α β : Type} (f : α → β) (e : α) (es : List α) :
    (es.map f).getLastD (f e) = f (es.getLastD e) := by
  induction es generalizing e with
  | nil => rfl
  | cons a as ih => rw [List.map_cons, List.getLastD_cons, List.getLastD_cons, ih]

/-- Helper: the ids of the entries returned by the bookmark loop are the
ids of the unprocessed tweets with a video, in bookmark order. -/
theorem fetchLoop_entries_ids (p0 : List String) (autoSave : Bool)
    (bms : List Tweet) :
    (fetchLoop p0 autoSave bms).1.map Entry.tweet_id =
      (bms.filter (fun t => !p0.contains t.id && (get_video_url t).isSome)).map
        Tweet.id := by
  induction bms with
  | nil => rfl
  | cons t rest ih =>
    simp only [fetchLoop, List.filter_cons]
    cases hc : p0.contains t.id
    · cases hv : get_video_url t <;>
        simp [hc, hv, entryOf, ih]
    · simp [hc, ih]

/-- Helper: with auto_save off, the ids appended to processed_ids.txt by
the bookmark loop are exactly the ids of the unprocessed tweets without a
video, in bookmark order. -/
theorem fetchLoop_newSaved_ids (p0 : List String) (bms : List Tweet) :
    (fetchLoop p0 false bms).2 =
      (bms.filter (fun t => !p0.contains t.id && (get_video_url t).isNone)).map
        Tweet.id := by
  induction bms with
  | nil => rfl
  | cons t rest ih =>
    simp only [fetchLoop, List.filter_cons]
    cases hc : p0.contains t.id
    · cases hv : get_video_url t <;>
        simp [hc, hv, ih]
    · simp [hc, ih]

/-- Two eligible bookmarked video tweets for the C9 counterexample;
bookmark lists arrive newest-first, so t_new is the newer item. -/
def twNew : Tweet :=
  { id := "t_new",
    media := [MediaItem.video
      [{ content_type := some "video/mp4", bitrate := some 1000,
         url := "https://video.twimg.com/new" }]],
    text := "n", user := some "a" }

/-- The older of the two bookmarked video tweets of the C9 counterexample. -/
def twOld : Tweet :=
  { id := "t_old",
    media := [MediaItem.video
      [{ content_type := some "video/mp4", bitrate := some 1000,
         url := "https://video.twimg.com/old" }]],
    text := "o", user := some "b" }

/-- Claim C9, counterexample: with the newest-first bookmark list
containing the newer t_new before the older t_old, both eligible and
unprocessed, fetch_bookmarked_videos returns them newest-first — the
oldest-first order required by the claim would be t_old before t_new. -/
theorem c9_counterexample :
    (fetch_bookmarked_videos false [twNew, twOld] []).entries.map Entry.tweet_id =
      ["t_new", "t_old"] ∧
    (fetch_bookmarked_videos false [twNew, twOld] []).entries.map Entry.tweet_id ≠
      ["t_old", "t_new"] := by
  refine ⟨rfl, ?_⟩
  decide

/-- Claim C9 as amended: the adapter returns the eligible unprocessed
candidates in bookmark (newest-first) order, and the cycle selects the
last of them, so the selected candidate is the oldest eligible
unprocessed item. -/
theorem c9_amended_order (env : Env) (h : env.igResult = none) :
    ((fetch_bookmarked_videos false env.bookmarks env.processed0).entries.map
        Entry.tweet_id =
      (env.bookmarks.filter
        (fun t => !env.processed0.contains t.id && (get_video_url t).isSome)).map
        Tweet.id) ∧
    (run_pipeline env).selected =
      (((env.bookmarks.filter
        (fun t => !env.processed0.contains t.id && (get_video_url t).isSome)).map
        Tweet.id).getLast?) := by
  obtain ⟨ig, bms, p0, f0, dl, cs, ytu, igu, cf, td⟩ := env
  cases h
  have hmap : (fetch_bookmarked_videos false bms p0).entries.map Entry.tweet_id =
      (bms.filter (fun t => !p0.contains t.id && (get_video_url t).isSome)).map
        Tweet.id := fetchLoop_entries_ids p0 false bms
  refine ⟨hmap, ?_⟩
  rw [← hmap]
  simp only [run_pipeline]
  rcases hE : (fetch_bookmarked_videos false bms p0).entries with _ | ⟨e, es⟩
  · rfl
  · have hlast : ((e :: es).map Entry.tweet_id).getLast? =
        some ((es.getLastD e).tweet_id) := by
      rw [List.map_cons, getLast?_cons_getLastD, getLastD_map]
    rw [hlast]
    cases dl <;> simp [download_video, PyVal.truthy]

/-- A pair of bookmarked tweets for the C9 witness: an ineligible newer
tweet and two eligible ones, the last being the oldest. -/
def envC9 : Env :=
  { igResult := none,
    bookmarks :=
      [{ id := "w_new",
         media := [MediaItem.video
           [{ content_type := some "video/mp4", bitrate := some 5,
              url := "https://video.twimg.com/wn" }]],
         text := "wn", user := some "u" },
       { id := "w_novid", media := [], text := "plain", user := none },
       { id := "w_old",
         media := [MediaItem.video
           [{ content_type := some "video/mp4", bitrate := some 7,
              url := "https://video.twimg.com/wo" }]],
         text := "wo", user := some "v" }],
    processed0 := [], files0 := ∅,
    downloadRes := some ("w_old.mp4", "cap"), convertSuccess := false,
    ytUpload := Except.ok none, igUpload := Except.ok none,
    ytCountFile := none, today := "2026-10-12" }

/-- Claim C9 witness at a concrete environment: the selected candidate is
the oldest eligible unprocessed bookmark. -/
theorem c9_witness :
    ((fetch_bookmarked_videos false envC9.bookmarks envC9.processed0).entries.map
        Entry.tweet_id =
      (envC9.bookmarks.filter
        (fun t => !envC9.processed0.contains t.id && (get_video_url t).isSome)).map
        Tweet.id) ∧
    (run_pipeline envC9).selected =
      (((envC9.bookmarks.filter
        (fun t => !envC9.processed0.contains t.id && (get_video_url t).isSome)).map
        Tweet.id).getLast?) :=
  c9_amended_order envC9 rfl

/-- Helper: any cycle whose upload step returned a pair containing a
success finalizes with the Idle dashboard reporting exactly the queue
size measured at selection. -/
theorem success_reports_selection_queue (env : Env) (y i : Option String)
    (m : Nat) (h1 : (run_pipeline env).uploadReturned = some (y, i))
    (h2 : (y.isSome || i.isSome) = true)
    (h3 : (run_pipeline env).remainingAtSelect = some m) :
    ∃ db, (run_pipeline env).dashboard = some db ∧
      db.queue_remaining = m ∧ db.error_message = none := by
  obtain ⟨ig, bms, p0, f0, dl, cs, ytu, igu, cf, td⟩ := env
  cases ig with
  | some t =>
    simp only [run_pipeline, processTarget] at h1 h3 ⊢
    split at h1
    · simp at h1
    · rename_i hr
      split at h1
      · rename_i hok
        simp only [if_neg hr, if_pos hok]
        simp only [if_neg hr, if_pos hok, Option.some.injEq] at h3
        exact ⟨_, rfl, h3, rfl⟩
      · rename_i hok
        simp only [Option.some.injEq, Prod.mk.injEq] at h1
        rw [h1.1, h1.2] at hok
        exact absurd h2 hok
  | none =>
    simp only [run_pipeline] at h1
    rcases hE : (fetch_bookmarked_videos false bms p0).entries with _ | ⟨e, es⟩ <;>
      simp only [hE] at h1
    · simp at h1
    · cases dl <;> simp [download_video, PyVal.truthy] at h1

/-- Claim C3: when the cycle attempted its enabled publishes and all of
them failed (the upload step returned with neither destination id), the
candidate id is not in the ProcessedSet afterwards, the local
downloaded-or-converted file is deleted, and the dashboard reports one
more queued item than the selection-time queue size — exactly one more
than a successful cycle reports (final conjunct). -/
theorem c3_total_failure_retry (env : Env) (tid : String)
    (hup : (run_pipeline env).uploadReturned = some (none, none))
    (hsel : (run_pipeline env).selected = some tid)
    (hnp : tid ∉ env.processed0) :
    tid ∉ (run_pipeline env).processed ∧
    (∀ c, (run_pipeline env).uploadCall = some c →
      c.local_path ∉ (run_pipeline env).files) ∧
    (∃ n, (run_pipeline env).remainingAtSelect = some n ∧
      (run_pipeline env).dashboard =
        some { status := "Idle", queue_remaining := n + 1,
               last_tweet_id := some tid,
               error_message := some "both uploads failed" }) ∧
    (∀ (env2 : Env) (y i : Option String) (m : Nat),
      (run_pipeline env2).uploadReturned = some (y, i) →
      (y.isSome || i.isSome) = true →
      (run_pipeline env2).remainingAtSelect = some m →
      ∃ db, (run_pipeline env2).dashboard = some db ∧
        db.queue_remaining = m ∧ db.error_message = none) := by
  refine ?_
  obtain ⟨ig, bms, p0, f0, dl, cs, ytu, igu, cf, td⟩ := env
  cases ig with
  | some t =>
    simp only [run_pipeline, processTarget] at hup hsel hnp ⊢
    split at hup
    · simp at hup
    · rename_i hr
      split at hup
      · rename_i hok
        simp only [Option.some.injEq, Prod.mk.injEq] at hup
        rw [hup.1, hup.2] at hok
        simp at hok
      · rename_i hok
        simp only [if_neg hr, if_neg hok] at hsel
        simp only [Option.some.injEq] at hsel
        subst hsel
        simp only [if_neg hr, if_neg hok]
        refine ⟨by exact hnp, ?_, ⟨0, rfl, rfl⟩,
          fun env2 y i m h1 h2 h3 =>
            success_reports_selection_queue env2 y i m h1 h2 h3⟩
        intro c hc
        simp only [Option.some.injEq] at hc
        subst hc
        exact Finset.not_mem_erase _ _
  | none =>
    simp only [run_pipeline] at hup
    rcases hE : (fetch_bookmarked_videos false bms p0).entries with _ | ⟨e, es⟩ <;>
      simp only [hE] at hup
    · simp at hup
    · cases dl <;> simp [download_video, PyVal.truthy] at hup

/-- C3 witness environment: a DM candidate whose two enabled publish
attempts both return no id. -/
def envC3 : Env :=
  { igResult := some { tweet_id := "ig_300", tweet_text := "r", author := "@r",
                       local_path := "reel300.mp4" },
    bookmarks := [], processed0 := [], files0 := ∅,
    downloadRes := none, convertSuccess := false,
    ytUpload := Except.ok none, igUpload := Except.ok none,
    ytCountFile := none, today := "2026-10-12" }

/-- Claim C3 witness at a concrete environment. -/
theorem c3_witness :
    "ig_300" ∉ (run_pipeline envC3).processed ∧
    (∀ c, (run_pipeline envC3).uploadCall = some c →
      c.local_path ∉ (run_pipeline envC3).files) ∧
    (∃ n, (run_pipeline envC3).remainingAtSelect = some n ∧
      (run_pipeline envC3).dashboard =
        some { status := "Idle", queue_remaining := n + 1,
               last_tweet_id := some "ig_300",
               error_message := some "both uploads failed" }) ∧
    (∀ (env2 : Env) (y i : Option String) (m : Nat),
      (run_pipeline env2).uploadReturned = some (y, i) →
      (y.isSome || i.isSome) = true →
      (run_pipeline env2).remainingAtSelect = some m →
      ∃ db, (run_pipeline env2).dashboard = some db ∧
        db.queue_remaining = m ∧ db.error_message = none) :=
  c3_total_failure_retry envC3 "ig_300" (by decide) (by decide) (by decide)

/-- Helper: membership in the ids saved as ineligible during discovery is
membership among the unprocessed bookmarks without a video. -/
theorem mem_newSaved_iff (p0 : List String) (bms : List Tweet) (id : String) :
    id ∈ (fetch_bookmarked_videos false bms p0).newSaved ↔
      id ∉ p0 ∧ ∃ t ∈ bms, t.id = id ∧ get_video_url t = none := by
  show id ∈ (fetchLoop p0 false bms).2 ↔ _
  rw [fetchLoop_newSaved_ids]
  simp only [List.mem_map, List.mem_filter, Bool.and_eq_true, Bool.not_eq_true']
  constructor
  · rintro ⟨t, ⟨htb, hnp, hnone⟩, hid⟩
    subst hid
    refine ⟨?_, t, htb, rfl, by simpa using hnone⟩
    simpa using hnp
  · rintro ⟨hnp, t, htb, hid, hnone⟩
    subst hid
    exact ⟨t, ⟨htb, by simpa using hnp, by simpa using hnone⟩, rfl⟩

/-- Helper: membership in the processed file written by one discovery
call splits into the prior contents and the newly saved ids. -/
theorem mem_fileAfter_iff (p0 : List String) (bms : List Tweet) (id : String) :
    id ∈ (fetch_bookmarked_videos false bms p0).fileAfter ↔
      id ∈ p0 ∨ id ∈ (fetch_bookmarked_videos false bms p0).newSaved := by
  show id ∈ p0 ++ (fetchLoop p0 false bms).2 ↔
    id ∈ p0 ∨ id ∈ (fetchLoop p0 false bms).2
  exact List.mem_append

set_option maxRecDepth 4000

/-- Claim C1 as amended: over a whole cycle, a candidate id enters the
ProcessedSet iff it was saved as ineligible (an unprocessed bookmark
with no media) or the upload step returned normally with at least one
destination id for the selected candidate; in particular a destination
success recorded in a normal upload return implies the id is saved, but
a success wiped out by a later exception inside the upload step
(see the counterexample) is not recorded. -/
theorem c1_amended_processed_iff (env : Env) (id : String) :
    (id ∈ (run_pipeline env).processed ↔
       id ∈ env.processed0 ∨ id ∈ (run_pipeline env).ineligSaved ∨
       (run_pipeline env).savedId = some id) ∧
    ((run_pipeline env).savedId = some id ↔
       (run_pipeline env).selected = some id ∧
       ∃ y i, (run_pipeline env).uploadReturned = some (y, i) ∧
         (y.isSome || i.isSome) = true) ∧
    (id ∈ (run_pipeline env).ineligSaved ↔
       env.igResult = none ∧ id ∉ env.processed0 ∧
       ∃ t ∈ env.bookmarks, t.id = id ∧ get_video_url t = none) := by
  obtain ⟨ig, bms, p0, f0, dl, cs, ytu, igu, cf, td⟩ := env
  cases ig with
  | some t =>
    simp only [run_pipeline, processTarget]
    split
    · rename_i hr
      exact ⟨by simp, by simp, by simp⟩
    · rename_i hr
      split
      · rename_i hok
        refine ⟨by simp [eq_comm], ?_, by simp⟩
        constructor
        · intro hsave
          exact ⟨hsave, _, _, rfl, hok⟩
        · rintro ⟨hsel, -⟩
          exact hsel
      · rename_i hok
        refine ⟨by simp, ?_, by simp⟩
        constructor
        · intro hcon
          simp at hcon
        · rintro ⟨-, y, i, hyi, hsome⟩
          simp only [Option.some.injEq, Prod.mk.injEq] at hyi
          rw [← hyi.1, ← hyi.2] at hsome
          exact absurd hsome hok
  | none =>
    simp only [run_pipeline]
    rcases hE : (fetch_bookmarked_videos false bms p0).entries with _ | ⟨e, es⟩ <;>
      simp only [hE]
    · exact ⟨by simp [mem_fileAfter_iff], by simp,
        by simpa using mem_newSaved_iff p0 bms id⟩
    · rcases dl with _ | ⟨fp, cap⟩ <;>
        (rw [if_neg (by simp [download_video, PyVal.truthy])]
         exact ⟨by simp [download_video, mem_fileAfter_iff],
           by simp [download_video],
           by simpa [download_video] using mem_newSaved_iff p0 bms id⟩)

/-- Helper: a string built from a nonempty character list is nonempty. -/
theorem mk_ne_empty {l : List Char} (h : l ≠ []) : String.mk l ≠ "" := by
  intro he
  apply h
  simpa using congrArg String.data he

/-- Helper: a string with nonempty character data is nonempty. -/
theorem ne_empty_of_data_ne_nil {s : String} (h : s.data ≠ []) : s ≠ "" := by
  intro he
  rw [he] at h
  exact h rfl

/-- Helper: string length is additive over append. -/
theorem length_append' (s t : String) : (s ++ t).length = s.length + t.length :=
  List.length_append s.data t.data

/-- Claim C10, counterexample: make_title with max_len 2 on a six-letter
caption truncates with the Python slice text up-to minus-one, yielding an
eight-character title — longer than max_len. -/
theorem c10_counterexample :
    make_title "abcdef" "" 2 = "abcde..." ∧
    ¬ ((make_title "abcdef" "" 2).length : Int) ≤ 2 := by
  constructor
  · rfl
  · decide

/-- Claim C10 as amended: clean_caption always returns a non-empty
string; make_title always returns a non-empty string, and its length is
bounded by max_len whenever max_len is at least 3 (so in particular for
the default of 100). -/
theorem c10_amended (text author : String) (max_len : Int) (h : 3 ≤ max_len) :
    clean_caption text author ≠ "" ∧
    make_title text author max_len ≠ "" ∧
    ((make_title text author max_len).length : Int) ≤ max_len := by
  have hcc : clean_caption text author ≠ "" := by
    show (if pyStrip (collapseWs (pyStrip (stripUrls text.data))) ≠ [] then
        String.mk (pyStrip (collapseWs (pyStrip (stripUrls text.data))))
      else if author ≠ "" then "🎬 Video by " ++ author
      else "🎬 Check out this video!") ≠ ""
    split
    · rename_i hne
      exact mk_ne_empty hne
    · split
      · apply ne_empty_of_data_ne_nil
        show ("🎬 Video by ".data ++ author.data) ≠ []
        simp
      · decide
  have hsplit : make_title text author max_len =
      if ((clean_caption text author).length : Int) > max_len then
        pySliceTo (clean_caption text author) (max_len - 3) ++ "..."
      else clean_caption text author := rfl
  refine ⟨hcc, ?_, ?_⟩
  · rw [hsplit]
    split
    · apply ne_empty_of_data_ne_nil
      show ((pySliceTo (clean_caption text author) (max_len - 3)).data ++
        "...".data) ≠ []
      simp
    · exact hcc
  · rw [hsplit]
    split
    · rename_i hgt
      have h1 : (pySliceTo (clean_caption text author) (max_len - 3)).length ≤
          (max_len - 3).toNat := by
        show (String.mk ((clean_caption text author).data.take
          ((if (max_len - 3) < 0 then
              ((clean_caption text author).length : Int) + (max_len - 3)
            else max_len - 3).toNat))).length ≤ (max_len - 3).toNat
        rw [if_neg (by omega)]
        exact List.length_take_le _ _
      have h2 : ((max_len - 3).toNat : Int) = max_len - 3 :=
        Int.toNat_of_nonneg (by omega)
      rw [length_append']
      have h3 : ("..." : String).length = 3 := rfl
      rw [h3]
      omega
    · rename_i hle
      omega

/-- Claim C10 witness at a concrete input with the default max_len. -/
theorem c10_witness :
    clean_caption "hi there" "" ≠ "" ∧
    make_title "hi there" "" 100 ≠ "" ∧
    ((make_title "hi there" "" 100).length : Int) ≤ 100 :=
  c10_amended "hi there" "" 100 (by decide)

/-! ## Decimal roundtrip and counter-file lemmas for the DailyCounter -/

/-- Helper: the decimal parser distributes over append. -/
theorem parseDigitsGo_append (acc : Nat) (xs ys : List Char) :
    parseDigitsGo acc (xs ++ ys) =
      match parseDigitsGo acc xs with
      | some a => parseDigitsGo a ys
      | none => none := by
  induction xs generalizing acc with
  | nil => rfl
  | cons c cs ih =>
    simp only [List.cons_append, parseDigitsGo]
    split
    · exact ih _
    · rfl

/-- Helper: digitChar below ten is a digit character. -/
theorem digitChar_isDigit {k : Nat} (h : k < 10) :
    isDigitCh (digitChar k) = true := by
  interval_cases k <;> decide

/-- Helper: digitVal inverts digitChar below ten. -/
theorem digitChar_val {k : Nat} (h : k < 10) : digitVal (digitChar k) = k := by
  interval_cases k <;> decide

/-- Helper: a digit character is not whitespace. -/
theorem digit_not_space {c : Char} (h : isDigitCh c = true) :
    isSpaceCh c = false := by
  have h48 : 48 ≤ c.toNat := by
    simp only [isDigitCh, Bool.and_eq_true, decide_eq_true_eq] at h
    exact h.1
  cases hsp : isSpaceCh c
  · rfl
  · exfalso
    have hor : c = ' ' ∨ c = '\t' ∨ c = '\n' ∨ c = '\r' ∨ c = '\x0b' ∨
        c = '\x0c' := by
      simpa [isSpaceCh, Bool.or_eq_true, decide_eq_true_eq, or_assoc] using hsp
    rcases hor with h1 | h1 | h1 | h1 | h1 | h1 <;>
      (subst h1; exact absurd h48 (by decide))

/-- Helper: a digit character is not a colon, minus or plus sign. -/
theorem digit_excl {c : Char} (h : isDigitCh c = true) :
    c ≠ ':' ∧ c ≠ '-' ∧ c ≠ '+' := by
  have hh : 48 ≤ c.toNat ∧ c.toNat ≤ 57 := by
    simpa only [isDigitCh, Bool.and_eq_true, decide_eq_true_eq] using h
  refine ⟨?_, ?_, ?_⟩ <;> intro he <;> subst he <;> revert hh <;> decide

/-- Helper: the rendering of a natural number is nonempty. -/
theorem natStrGo_ne_nil (fuel k : Nat) (h : k < fuel) : natStrGo fuel k ≠ [] := by
  cases fuel with
  | zero => exact absurd h (Nat.not_lt_zero k)
  | succ fuel =>
    simp only [natStrGo]
    split
    · simp
    · intro he
      simpa using congrArg List.length he

/-- Helper: every character of a rendered natural number is digitChar of a
value below ten. -/
theorem natStrGo_mem {fuel : Nat} : ∀ {k : Nat}, k < fuel →
    ∀ c ∈ natStrGo fuel k, ∃ m, m < 10 ∧ c = digitChar m := by
  induction fuel with
  | zero => intro k h; omega
  | succ fuel ih =>
    intro k h
    simp only [natStrGo]
    split
    · rename_i hk
      intro c hc
      simp only [List.mem_singleton] at hc
      exact ⟨k, hk, hc⟩
    · rename_i hk
      intro c hc
      simp only [List.mem_append, List.mem_singleton] at hc
      rcases hc with hc | hc
      · exact ih (by omega) c hc
      · exact ⟨k % 10, Nat.mod_lt _ (by omega), hc⟩

/-- Helper: every character of a rendered natural number is a digit. -/
theorem natStrGo_digits {fuel k : Nat} (h : k < fuel) :
    ∀ c ∈ natStrGo fuel k, isDigitCh c = true := by
  intro c hc
  obtain ⟨m, hm, rfl⟩ := natStrGo_mem h c hc
  exact digitChar_isDigit hm

/-- Helper: parsing the rendering of a natural number yields it back,
with the accumulator shifted by the rendered length. -/
theorem parseDigitsGo_natStrGo :
    ∀ (fuel k acc : Nat), k < fuel →
      parseDigitsGo acc (natStrGo fuel k) =
        some (acc * 10 ^ (natStrGo fuel k).length + k) := by
  intro fuel
  induction fuel with
  | zero => intro k acc h; exact absurd h (Nat.not_lt_zero k)
  | succ fuel ih =>
    intro k acc h
    by_cases hk : k < 10
    · simp [natStrGo, if_pos hk, parseDigitsGo, digitChar_isDigit hk,
        digitChar_val hk]
    · have h10 : k % 10 < 10 := Nat.mod_lt _ (by omega)
      have hdiv : k / 10 < fuel := by omega
      simp only [natStrGo, if_neg hk]
      rw [parseDigitsGo_append, ih (k / 10) acc hdiv]
      simp [parseDigitsGo, digitChar_isDigit h10, digitChar_val h10]
      have hmod : 10 * (k / 10) + k % 10 = k := Nat.div_add_mod k 10
      rw [pow_succ]
      generalize (10 : Nat) ^ (natStrGo fuel (k / 10)).length = P
      calc (acc * P + k / 10) * 10 + k % 10
          = acc * (P * 10) + (10 * (k / 10) + k % 10) := by ring
        _ = acc * (P * 10) + k := by rw [hmod]

/-- Helper: dropWhile never lengthens a list. -/
theorem length_dropWhile_le' (p : Char → Bool) (l : List Char) :
    (l.dropWhile p).length ≤ l.length :=
  (List.dropWhile_sublist p).length_le

/-- Helper: dropWhile keeps a list whose head fails the predicate. -/
theorem dropWhile_cons_of_neg {c : Char} {cs : List Char} (p : Char → Bool)
    (h : p c = false) : (c :: cs).dropWhile p = c :: cs := by
  simp [List.dropWhile_cons, h]

/-- Helper: a strip-stable nonempty list has a non-whitespace head. -/
theorem head_not_space_of_pyStrip_eq {x : Char} {xs : List Char}
    (h : pyStrip (x :: xs) = x :: xs) : isSpaceCh x = false := by
  by_contra hcon
  rw [Bool.not_eq_false] at hcon
  have hlen : (pyStrip (x :: xs)).length ≤ xs.length := by
    unfold pyStrip
    rw [List.dropWhile_cons, if_pos hcon]
    calc ((xs.dropWhile isSpaceCh).reverse.dropWhile isSpaceCh).reverse.length
        = ((xs.dropWhile isSpaceCh).reverse.dropWhile isSpaceCh).length :=
          List.length_reverse _
      _ ≤ (xs.dropWhile isSpaceCh).reverse.length := length_dropWhile_le' _ _
      _ = (xs.dropWhile isSpaceCh).length := List.length_reverse _
      _ ≤ xs.length := length_dropWhile_le' _ _
  rw [h, List.length_cons] at hlen
  omega

/-- Helper: a list with no whitespace characters is strip-stable. -/
theorem pyStrip_of_not_space {l : List Char}
    (h : ∀ c ∈ l, isSpaceCh c = false) : pyStrip l = l := by
  unfold pyStrip
  have h1 : l.dropWhile isSpaceCh = l := by
    cases l with
    | nil => rfl
    | cons c cs => exact dropWhile_cons_of_neg _ (h c (List.mem_cons_self c cs))
  rw [h1]
  have h2 : l.reverse.dropWhile isSpaceCh = l.reverse := by
    cases hR : l.reverse with
    | nil => rfl
    | cons c cs =>
      refine dropWhile_cons_of_neg _ (h c ?_)
      have hm : c ∈ l.reverse := by
        rw [hR]
        exact List.mem_cons_self c cs
      simpa using hm
  rw [h2, List.reverse_reverse]

/-- Helper: a counter line date:digits built from a strip-stable date and
digit characters is strip-stable. -/
theorem pyStrip_append_line {A D : List Char}
    (hA : pyStrip A = A) (hD : D ≠ [])
    (hDns : ∀ c ∈ D, isSpaceCh c = false) :
    pyStrip (A ++ ':' :: D) = A ++ ':' :: D := by
  unfold pyStrip
  have h1 : (A ++ ':' :: D).dropWhile isSpaceCh = A ++ ':' :: D := by
    cases A with
    | nil => exact dropWhile_cons_of_neg _ (by decide)
    | cons x xs =>
      have hx : isSpaceCh x = false := head_not_space_of_pyStrip_eq hA
      exact dropWhile_cons_of_neg _ hx
  rw [h1]
  obtain ⟨d, rest, hrev⟩ : ∃ d rest, D.reverse = d :: rest := by
    cases hR : D.reverse with
    | nil =>
      exact absurd (by simpa using congrArg List.reverse hR) hD
    | cons d r => exact ⟨d, r, rfl⟩
  have hdm : d ∈ D := by
    have hm : d ∈ D.reverse := by
      rw [hrev]
      exact List.mem_cons_self d rest
    simpa using hm
  have hd : isSpaceCh d = false := hDns d hdm
  have h2 : (A ++ ':' :: D).reverse = d :: (rest ++ ':' :: A.reverse) := by
    rw [List.reverse_append, List.reverse_cons, hrev]
    simp
  rw [h2, dropWhile_cons_of_neg _ hd, ← h2, List.reverse_reverse]

/-- Helper: splitting a colon-free list yields the singleton. -/
theorem splitColon_no_colon {l : List Char} (h : ∀ c ∈ l, c ≠ ':') :
    splitColon l = [l] := by
  induction l with
  | nil => rfl
  | cons c cs ih =>
    simp only [splitColon]
    rw [if_neg (h c (List.mem_cons_self c cs)),
      ih (fun x hx => h x (List.mem_cons_of_mem c hx))]

/-- Helper: splitting at the first colon separates the colon-free head. -/
theorem splitColon_append {A D : List Char} (hA : ∀ c ∈ A, c ≠ ':') :
    splitColon (A ++ ':' :: D) = A :: splitColon D := by
  induction A with
  | nil => simp [splitColon]
  | cons c cs ih =>
    simp only [List.cons_append, splitColon, List.append_eq]
    rw [if_neg (hA c (List.mem_cons_self c cs)),
      ih (fun x hx => hA x (List.mem_cons_of_mem c hx))]

/-- Helper: two strings with equal character data are equal. -/
theorem data_inj {s t : String} (h : s.data = t.data) : s = t := by
  cases s
  cases t
  exact congrArg String.mk h

/-- Helper: the Python int parser accepts a nonempty digit list and
returns the value of the accumulating parser. -/
theorem pyInt_digits {D : List Char} (hne : D ≠ [])
    (hdig : ∀ c ∈ D, isDigitCh c = true) (n : Nat)
    (hparse : parseDigitsGo 0 D = some n) :
    pyInt D = some (n : Int) := by
  have hstrip : pyStrip D = D :=
    pyStrip_of_not_space (fun c hc => digit_not_space (hdig c hc))
  obtain ⟨c, rest, rfl⟩ : ∃ c rest, D = c :: rest := by
    cases D with
    | nil => exact absurd rfl hne
    | cons c r => exact ⟨c, r, rfl⟩
  have hc := hdig c (List.mem_cons_self c rest)
  obtain ⟨-, hcd, hcp⟩ := digit_excl hc
  simp only [pyInt, hstrip]
  rw [if_neg hcd, if_neg hcp]
  show (parseDigitsGo 0 (c :: rest)).map (fun n => (n : Int)) = some (n : Int)
  rw [hparse]
  rfl

/-- Claim C8: a DailyCounter line written by the increment on date d1 is
read back as the stored count on d1 and as 0 on any other date d2 — the
prior-date count is superseded, not decremented.  The side conditions say
d1 is a plausible date string: strip-stable and colon-free, as every
strftime date is; both reader and writer take the same today parameter,
mirroring their shared UTC clock. -/
theorem c8_daily_counter (f : Option String) (d1 d2 : String)
    (hws : pyStrip d1.data = d1.data)
    (hcol : ∀ c ∈ d1.data, c ≠ ':')
    (hne : d2 ≠ d1)
    (hnn : 0 ≤ yt_daily_count f d1) :
    yt_daily_count (some (increment_yt_daily_count f d1).1) d1 =
      (increment_yt_daily_count f d1).2 ∧
    yt_daily_count (some (increment_yt_daily_count f d1).1) d2 = 0 := by
  have hpair : (increment_yt_daily_count f d1).1 =
      d1 ++ ":" ++ intStr (yt_daily_count f d1 + 1) := rfl
  have hsnd : (increment_yt_daily_count f d1).2 = yt_daily_count f d1 + 1 := rfl
  set n : Int := yt_daily_count f d1 + 1 with hn
  have hint : intStr n = natStr n.toNat := by
    unfold intStr
    rw [if_neg (by omega)]
  set m : Nat := n.toNat with hm
  have hmn : (m : Int) = n := Int.toNat_of_nonneg (by omega)
  set D : List Char := natStrGo (m + 1) m with hDdef
  have hmlt : m < m + 1 := Nat.lt_succ_self m
  have hDne : D ≠ [] := natStrGo_ne_nil (m + 1) m hmlt
  have hDdig : ∀ c ∈ D, isDigitCh c = true := natStrGo_digits hmlt
  have hDns : ∀ c ∈ D, isSpaceCh c = false :=
    fun c hc => digit_not_space (hDdig c hc)
  have hDnc : ∀ c ∈ D, c ≠ ':' := fun c hc => (digit_excl (hDdig c hc)).1
  have hdata : (d1 ++ ":" ++ intStr n).data = d1.data ++ ':' :: D := by
    rw [hint]
    show (d1.data ++ [':']) ++ D = d1.data ++ ':' :: D
    simp
  have hparse : parseDigitsGo 0 D = some m := by
    have hp := parseDigitsGo_natStrGo (m + 1) m 0 hmlt
    simpa using hp
  have hPyInt : pyInt D = some (m : Int) := pyInt_digits hDne hDdig m hparse
  have key : ∀ today : String,
      yt_daily_count (some (d1 ++ ":" ++ intStr n)) today =
        if d1.data = today.data then (m : Int) else 0 := by
    intro today
    simp only [yt_daily_count, hdata]
    rw [pyStrip_append_line hws hDne hDns]
    rw [if_neg (by simp)]
    rw [splitColon_append hcol, splitColon_no_colon hDnc]
    by_cases hdq : d1.data = today.data <;> simp [hdq, hPyInt]
  constructor
  · rw [hpair, hsnd, key d1, if_pos rfl, hmn]
  · rw [hpair, key d2, if_neg]
    intro hcon
    exact hne (data_inj hcon).symm

/-- Claim C8 witness: a counter written on 2026-10-11 reads back as its
stored count that day and as 0 on 2026-10-12. -/
theorem c8_witness :
    yt_daily_count (some (increment_yt_daily_count none "2026-10-11").1)
      "2026-10-11" = (increment_yt_daily_count none "2026-10-11").2 ∧
    yt_daily_count (some (increment_yt_daily_count none "2026-10-11").1)
      "2026-10-12" = 0 :=
  c8_daily_counter none "2026-10-11" "2026-10-12" (by decide) (by decide)
    (by decide) (by decide)

end RepostBot
